import Mathlib

/-
  Verification development for the MamáMind WhatsApp nutrition chatbot.

  The definitions below are a shallow embedding of chatbot/models.py and
  chatbot/bot_logic.py.  Python strings are Lean Strings, Django model rows
  are Lean structures, the meal-plan JSON payload returned by the external
  completion service is modelled by a dedicated inductive shape, and the
  external collaborators (completion service, random generator, clock) are
  supplied as explicit environment parameters.
-/

namespace MamaMind

/-! ## Python string primitives (ASCII fragment used by the code) -/

/-- ASCII lower-casing of one character, as Python str.lower does on ASCII. -/
def lowerChar (c : Char) : Char :=
  if 'A' ≤ c ∧ c ≤ 'Z' then Char.ofNat (c.toNat + 32) else c

/-- ASCII upper-casing of one character, as Python str.upper does on ASCII. -/
def upperChar (c : Char) : Char :=
  if 'a' ≤ c ∧ c ≤ 'z' then Char.ofNat (c.toNat - 32) else c

/-- Python str.lower (ASCII fragment). -/
def pyLower (s : String) : String := String.mk (s.toList.map lowerChar)

/-- The whitespace characters stripped by Python str.strip (ASCII fragment). -/
def isPyWS (c : Char) : Bool :=
  c = ' ' || c = '\t' || c = '\n' || c = '\r' || c = Char.ofNat 11 || c = Char.ofNat 12

/-- Python str.strip on a character list. -/
def pyStripL (l : List Char) : List Char :=
  ((l.dropWhile isPyWS).reverse.dropWhile isPyWS).reverse

/-- Python str.strip. -/
def pyStrip (s : String) : String := String.mk (pyStripL s.toList)

/-- Python str.capitalize (ASCII fragment): first character upper, rest lower. -/
def pyCapitalize (s : String) : String :=
  match s.toList with
  | [] => ""
  | c :: rest => String.mk (upperChar c :: rest.map lowerChar)

def isAsciiAlpha (c : Char) : Bool :=
  ('a' ≤ c && c ≤ 'z') || ('A' ≤ c && c ≤ 'Z')

/-- Helper for pyTitle: upper-case a letter that does not follow a letter. -/
def pyTitleGo : List Char → Bool → List Char
  | [], _ => []
  | c :: rest, prevAlpha =>
      (if isAsciiAlpha c then (if prevAlpha then lowerChar c else upperChar c) else c)
        :: pyTitleGo rest (isAsciiAlpha c)

/-- Python str.title (ASCII fragment). -/
def pyTitle (s : String) : String := String.mk (pyTitleGo s.toList false)

/-- Split a character list on commas; Python str.split with a separator never
    returns an empty list (the empty string splits to one empty part). -/
def splitComma : List Char → List (List Char)
  | [] => [[]]
  | c :: rest =>
      if c = ',' then [] :: splitComma rest
      else
        match splitComma rest with
        | [] => [[c]]
        | h :: t => (c :: h) :: t

/-- The numeric value of a nonempty all-digit character list. -/
def digitsVal (l : List Char) : Option Nat :=
  if l ≠ [] ∧ l.all (fun c => '0' ≤ c && c ≤ '9') then
    some (l.foldl (fun a c => a * 10 + (c.toNat - 48)) 0)
  else none

/-- Python int(...) applied to a string token: strip whitespace, optional
    sign, then a nonempty digit run; none models a raised ValueError. -/
def pyInt (l : List Char) : Option Int :=
  match pyStripL l with
  | '-' :: rest => (digitsVal rest).map (fun n => -(n : Int))
  | '+' :: rest => (digitsVal rest).map (fun n => (n : Int))
  | s => (digitsVal s).map (fun n => (n : Int))

/-- [int(x.strip()) for x in message.split(',')] — none when any token fails. -/
def parseSelections (m : String) : Option (List Int) :=
  (splitComma m.toList).mapM pyInt

/-- Python sep.join(parts). -/
def pyJoin (sep : String) : List String → String
  | [] => ""
  | [p] => p
  | p :: rest => p ++ sep ++ pyJoin sep rest

/-- Python substring containment (needle in haystack). -/
def isSubstr (n : List Char) : List Char → Bool
  | [] => n.isEmpty
  | c :: rest => n.isPrefixOf (c :: rest) || isSubstr n rest

/-! ## The user profile (chatbot/models.py User) -/

/-- The User model row.  other_dietary_preferences and other_conditions are
    plain attributes assigned by the bot code (they are not declared model
    fields), modelled here with empty-string defaults.  Timestamps are out of
    scope. -/
structure User where
  phone_number : String := ""
  trimester : Option Int := none
  dietary_preferences : List String := []
  other_dietary_preferences : String := ""
  allergies : String := ""
  cultural_preferences : String := ""
  pregnancy_conditions : List String := []
  other_conditions : String := ""
  wants_meal_plans : Bool := false
  wants_nutrition_tips : Bool := false
  wants_recipe_suggestions : Bool := false
  wants_nutrition_qa : Bool := false
  conversation_state : String := "START"
  deriving Repr, DecidableEq

/-- A row freshly created by User.objects.get_or_create: every field takes
    its model default, in particular conversation_state = START. -/
def freshUser (phone : String) : User := { phone_number := phone }

/-- models.py User.reset_preferences.  It does not touch
    other_dietary_preferences / other_conditions (the source method never
    assigns those attributes). -/
def User.reset_preferences (u : User) : User :=
  { u with
    trimester := none
    dietary_preferences := []
    allergies := ""
    cultural_preferences := ""
    pregnancy_conditions := []
    wants_meal_plans := false
    wants_nutrition_tips := false
    wants_recipe_suggestions := false
    wants_nutrition_qa := false
    conversation_state := "START" }

/-! ## Fixed enumerations (BotLogic.__init__) -/

def TRIMESTERS : List Int := [1, 2, 3]

def DIETARY_PREFERENCES : List String :=
  ["Vegetarian", "Vegan", "Gluten-free", "Dairy-free", "No restrictions", "Other"]

def PREGNANCY_CONDITIONS : List String :=
  ["Anemia or low iron", "Gestational diabetes", "Hypertension", "Morning sickness", "None", "Other"]

def USAGE_PREFERENCES : List String :=
  ["Weekly meal plans", "Daily nutrition tips", "Recipe suggestions", "Nutrition Q&A", "All of the above"]

/-- The thirteen conversation states of the state machine (spec section 4.1). -/
def STATE_NAMES : List String :=
  ["ONBOARDING_START", "AWAITING_TRIMESTER", "AWAITING_DIETARY_PREFERENCES",
   "AWAITING_OTHER_DIETARY", "AWAITING_ALLERGIES", "AWAITING_CULTURAL_PREFERENCES",
   "AWAITING_PREGNANCY_CONDITIONS", "AWAITING_OTHER_CONDITIONS",
   "AWAITING_USAGE_PREFERENCES", "COMPLETED_ONBOARDING", "AWAITING_MEAL_PLAN_DAY",
   "AWAITING_SHARE_CONFIRMATION", "CONFIRM_RESET"]

/-- "\n".join over f-string-numbered options, as in the option menus. -/
def enumOptions (l : List String) : String :=
  pyJoin "\n" (l.enum.map (fun p => toString (p.1 + 1) ++ ". " ++ p.2))

/-- M2M add: a set-like add on the preference list. -/
def addPref (name : String) (l : List String) : List String :=
  if name ∈ l then l else l ++ [name]

/-- any(s < 1 or s > len(enum) for s in selections). -/
def outOfRange (sels : List Int) (n : Nat) : Bool :=
  sels.any (fun s => decide (s < 1) || decide (s > (n : Int)))

/-! ## Onboarding handlers (BotLogic) -/

/-- The rotating tips of BotLogic.get_daily_tip. -/
def DAILY_TIPS : List String :=
  ["🌿 Daily Tip: Add greens like spinach to your meals – they\x27re high in folate and support the baby’s brain development.",
   "🍊 Daily Tip: Pair iron-rich foods with Vitamin C for better absorption. Try lentils with lemon or orange slices.",
   "🥥 Daily Tip: Coconut water helps keep you hydrated and balances electrolytes during pregnancy.",
   "🥬 Daily Tip: Ugu and spinach are packed with folate – essential for your baby’s brain and spine.",
   "💤 Daily Tip: Aim for 7-9 hours of sleep. Proper rest supports healthy fetal growth."]

/-- BotLogic.get_daily_tip: tip keyed by day of month modulo the tip count. -/
def get_daily_tip (dayOfMonth : Nat) : String :=
  DAILY_TIPS.getD (dayOfMonth % DAILY_TIPS.length) ""

/-- BotLogic._show_menu.  The source also compares the state with None, which
    a saved row can never hold (the CharField defaults to START). -/
def show_menu (u : User) : String :=
  if u.conversation_state = "COMPLETED_ONBOARDING" then
    "🌟 **MamáMind Menu**\n\n🍽️ **meal plan** - Get personalized weekly meals\n❓ **Ask questions** - Pregnancy nutrition Q&A\n💡 **daily tip** - Get today\x27s nutrition tip\n⚙️ **settings** - Update your preferences\n📤 **share** - Share your meal plan\n\n💬 *Just type any option or ask me anything!*"
  else
    "Let me help you complete your profile first! 😊"

/-- BotLogic._handle_onboarding_start. -/
def handle_onboarding_start (dayOfMonth : Nat) (u : User) : User × String :=
  ({ u with conversation_state := "AWAITING_TRIMESTER" },
   get_daily_tip dayOfMonth ++ "\n\n" ++
   "👋 Hi! I\x27m MamáMind, your AI-powered pregnancy nutrition coach. " ++
   "Let\x27s create your personalized nutrition journey! 🍎🤰\n\n" ++
   "Which trimester are you in?\n1. First\n2. Second\n3. Third")

/-- BotLogic._handle_trimester_response. -/
def handle_trimester_response (u : User) (m : String) : User × String :=
  match pyInt m.toList with
  | none => (u, "Please enter a valid number for your trimester.")
  | some t =>
      if t ∈ TRIMESTERS then
        ({ u with trimester := some t, conversation_state := "AWAITING_DIETARY_PREFERENCES" },
         "Thanks! Do you have any dietary restrictions or preferences?\n\n" ++
           enumOptions DIETARY_PREFERENCES)
      else (u, "Please enter a valid trimester (1, 2, or 3).")

/-- One loop iteration of _handle_dietary_preferences_response: the Other
    entry records the pending free-text question and the follow-up state, any
    other entry is added to the M2M set. -/
def dietaryStep (st : User × Bool) (s : Int) : User × Bool :=
  let name := DIETARY_PREFERENCES.getD (s - 1).toNat ""
  if name = "Other" then
    ({ st.1 with conversation_state := "AWAITING_OTHER_DIETARY" }, true)
  else
    ({ st.1 with dietary_preferences := addPref name st.1.dietary_preferences }, st.2)

/-- BotLogic._handle_dietary_preferences_response. -/
def handle_dietary_preferences_response (u : User) (m : String) : User × String :=
  match parseSelections m with
  | none => (u, "Please enter valid numbers for your dietary preferences.")
  | some sels =>
      if outOfRange sels DIETARY_PREFERENCES.length then
        (u, "Please enter valid numbers between 1 and " ++
            toString DIETARY_PREFERENCES.length ++ ".")
      else
        let r := sels.foldl dietaryStep ({ u with dietary_preferences := [] }, false)
        if r.2 then
          (r.1, "Please specify your other dietary preferences:")
        else
          let selected := sels.map (fun s => DIETARY_PREFERENCES.getD (s - 1).toNat "")
          ({ r.1 with conversation_state := "AWAITING_ALLERGIES" },
           "Got it – " ++ pyJoin ", " selected ++ "!\n\n" ++
           "Any food allergies or intolerances I should know about? " ++
           "Please list them, or type NONE.")

/-- BotLogic._handle_other_dietary_response (never dispatched by
    process_message; see the claim about the missing state cases). -/
def handle_other_dietary_response (u : User) (m : String) : User × String :=
  ({ u with other_dietary_preferences := pyStrip m,
            conversation_state := "AWAITING_ALLERGIES" },
   "Got it – " ++ pyStrip m ++ " added to your preferences!\n\n" ++
   "Any food allergies or intolerances I should know about? " ++
   "Please list them, or type NONE.")

/-- BotLogic._handle_allergies_response. -/
def handle_allergies_response (u : User) (m : String) : User × String :=
  let allergies0 := pyStrip m
  let allergies := if pyLower allergies0 = "none" then "" else allergies0
  ({ u with allergies := allergies, conversation_state := "AWAITING_CULTURAL_PREFERENCES" },
   "Noted – " ++ (if allergies = "" then "no allergies" else "avoiding " ++ allergies) ++
   ".\n\n" ++
   "Which cuisine or cultural food traditions do you typically follow? " ++
   "This helps me suggest meals you\x27ll enjoy.")

/-- BotLogic._handle_cultural_preferences_response. -/
def handle_cultural_preferences_response (u : User) (m : String) : User × String :=
  let cultural := pyStrip m
  ({ u with cultural_preferences := cultural,
            conversation_state := "AWAITING_PREGNANCY_CONDITIONS" },
   "Wonderful! " ++ cultural ++ " cuisine has many excellent options perfect for pregnancy.\n\n" ++
   "Have you been diagnosed with any pregnancy-related conditions? Select all that apply:\n\n" ++
   enumOptions PREGNANCY_CONDITIONS)

/-- One loop iteration of _handle_pregnancy_conditions_response: Other records
    the follow-up state, None is skipped, the rest are added to the M2M set. -/
def conditionStep (st : User × Bool) (s : Int) : User × Bool :=
  let name := PREGNANCY_CONDITIONS.getD (s - 1).toNat ""
  if name = "Other" then
    ({ st.1 with conversation_state := "AWAITING_OTHER_CONDITIONS" }, true)
  else if name ≠ "None" then
    ({ st.1 with pregnancy_conditions := addPref name st.1.pregnancy_conditions }, st.2)
  else st

/-- BotLogic._handle_pregnancy_conditions_response. -/
def handle_pregnancy_conditions_response (u : User) (m : String) : User × String :=
  match parseSelections m with
  | none => (u, "Please enter valid numbers for your pregnancy conditions.")
  | some sels =>
      if outOfRange sels PREGNANCY_CONDITIONS.length then
        (u, "Please enter valid numbers between 1 and " ++
            toString PREGNANCY_CONDITIONS.length ++ ".")
      else
        let r := sels.foldl conditionStep ({ u with pregnancy_conditions := [] }, false)
        if r.2 then
          (r.1, "Please specify your other pregnancy conditions:")
        else
          let selected := (sels.map (fun s => PREGNANCY_CONDITIONS.getD (s - 1).toNat "")).filter
            (fun n => n ≠ "None")
          ({ r.1 with conversation_state := "AWAITING_USAGE_PREFERENCES" },
           "Thanks – " ++
           (if selected ≠ [] then
              "I\x27ll focus on options to support " ++ pyJoin ", " selected ++ "."
            else "No specific conditions noted.") ++
           "\n\n" ++
           "How would you like to use MamáMind? Choose your preferences:\n\n" ++
           enumOptions USAGE_PREFERENCES)

/-- BotLogic._handle_other_conditions_response (never dispatched by
    process_message; see the claim about the missing state cases). -/
def handle_other_conditions_response (u : User) (m : String) : User × String :=
  ({ u with other_conditions := pyStrip m,
            conversation_state := "AWAITING_USAGE_PREFERENCES" },
   "Thanks – I\x27ll note " ++ pyStrip m ++ ".\n\n" ++
   "How would you like to use MamáMind? Choose your preferences:\n\n" ++
   enumOptions USAGE_PREFERENCES)

/-- The f-string rendering of the Option-valued trimester field. -/
def showOptInt : Option Int → String
  | none => "None"
  | some n => toString n

/-- BotLogic._get_onboarding_completion_message. -/
def get_onboarding_completion_message (u : User) : String :=
  let trimester_text := "Trimester " ++ showOptInt u.trimester
  let diet_text := pyJoin ", " u.dietary_preferences ++
    (if u.other_dietary_preferences ≠ "" then ", " ++ u.other_dietary_preferences else "")
  let allergies_text := if u.allergies ≠ "" then u.allergies else "No allergies"
  let conditions_text :=
    if u.pregnancy_conditions ≠ [] ∨ u.other_conditions ≠ "" then
      pyJoin ", " u.pregnancy_conditions ++
        (if u.other_conditions ≠ "" then ", " ++ u.other_conditions else "")
    else "No specific conditions"
  "🎉 Perfect! Your profile is set up. Based on your information:\n\n" ++
  "✅ " ++ trimester_text ++ "\n✅ " ++ diet_text ++ "\n✅ " ++ allergies_text ++
  "\n✅ " ++ u.cultural_preferences ++ " cuisine preference\n✅ " ++ conditions_text ++
  "\n\n✨ **What would you like to do?**\n🍽️ **meal plan** - Get personalized weekly meals\n❓ **Ask questions** - Pregnancy nutrition Q&A\n💡 **daily tip** - Get today\x27s nutrition tip\n📋 **menu** - See all options anytime\n⚙️ **settings** - Update preferences\n\n💬 *Just type any option or ask me anything!*"

/-- BotLogic._handle_usage_preferences_response. -/
def handle_usage_preferences_response (u : User) (m : String) : User × String :=
  if pyStrip m = "5" then
    let u2 := { u with wants_meal_plans := true, wants_nutrition_tips := true,
                       wants_recipe_suggestions := true, wants_nutrition_qa := true,
                       conversation_state := "COMPLETED_ONBOARDING" }
    (u2, get_onboarding_completion_message u2)
  else
    match parseSelections m with
    | none => (u, "Please enter valid numbers for your usage preferences.")
    | some sels =>
        if outOfRange sels USAGE_PREFERENCES.length then
          (u, "Please enter valid numbers between 1 and " ++
              toString USAGE_PREFERENCES.length ++ ".")
        else
          let u2 := { u with
            wants_meal_plans := (1 : Int) ∈ sels
            wants_nutrition_tips := (2 : Int) ∈ sels
            wants_recipe_suggestions := (3 : Int) ∈ sels
            wants_nutrition_qa := (4 : Int) ∈ sels
            conversation_state := "COMPLETED_ONBOARDING" }
          (u2, get_onboarding_completion_message u2)

/-- BotLogic._handle_reset_confirmation. -/
def handle_reset_confirmation (dayOfMonth : Nat) (u : User) (m : String) : User × String :=
  if pyLower m = "yes" then
    let u2 := { u.reset_preferences with conversation_state := "ONBOARDING_START" }
    let p := handle_onboarding_start dayOfMonth u2
    (p.1, "Profile cleared. Let\x27s start fresh! " ++ p.2)
  else
    ({ u with conversation_state := "COMPLETED_ONBOARDING" },
     "Okay, your profile remains unchanged. Type a question or \x27Generate meal plan\x27 to continue.")

/-! ## Meal-plan payload shape and validation (BotLogic._generate_meal_plan) -/

/-- One meal value inside the days/meals JSON payload; only the keys the bot
    reads are modelled, each optional because the payload is untrusted. -/
structure MealData where
  name : Option String := none
  description : Option String := none
  nutritional_benefits : Option String := none
  deriving Repr, DecidableEq

/-- One entry of the days list when it is a JSON object: key-presence flags
    mirror the membership tests the validation loop performs. -/
structure DayDict where
  dayPresent : Bool := true
  day : String := ""
  mealsPresent : Bool := true
  mealsIsDict : Bool := true
  meals : List (String × MealData) := []
  tipField : Option String := none
  deriving Repr, DecidableEq

/-- An element of the days list: either not a JSON object (skipped by
    validation) or an object. -/
inductive DayItem where
  | notDict : DayItem
  | dict : DayDict → DayItem
  deriving Repr, DecidableEq

/-- The outcome of one sonar.generate_meal_plan call: a raised exception, a
    falsy or non-dict payload, or a dict with an optional error key and a
    days list (a missing days key reads as the empty list). -/
inductive SonarPlanResult where
  | exn : SonarPlanResult
  | falsyOrNotDict : SonarPlanResult
  | dict : Option String → List DayItem → SonarPlanResult
  deriving Repr, DecidableEq

/-- The per-day validation filter: keep a day only if it is a dict with both
    a day key and a meals key whose value is a nonempty dict. -/
def validDayFilter : DayItem → Option DayDict
  | .notDict => none
  | .dict d =>
      if d.dayPresent ∧ d.mealsPresent ∧ d.mealsIsDict ∧ d.meals ≠ [] then some d else none

/-- The validation applied to one attempt inside the retry loop; none models
    the raised exception that triggers a retry. -/
def validatePlan : SonarPlanResult → Option (List DayDict)
  | .exn => none
  | .falsyOrNotDict => none
  | .dict err days =>
      if err.isSome then none
      else if days = [] then none
      else
        let valid := days.filterMap validDayFilter
        if valid = [] then none else some valid

/-- The retry loop: the first attempt whose payload validates wins. -/
def firstValidPlan : List SonarPlanResult → Option (List DayDict)
  | [] => none
  | a :: rest =>
      match validatePlan a with
      | some v => some v
      | none => firstValidPlan rest

/-- A stored MealPlan row (meal_plan_data reduced to its days list, the only
    part the bot reads back). -/
structure MealPlanRec where
  phone_number : String
  week_number : Nat
  days : List DayDict
  deriving Repr, DecidableEq

/-- The MealPlan table, newest row first (rows are prepended on create, so
    head-first search matches order_by minus-created_at .first()). -/
def latestPlanFor (db : List MealPlanRec) (phone : String) : Option MealPlanRec :=
  db.find? (fun r => r.phone_number == phone)

/-- MealPlan.objects.filter(user=user, week_number=week_number).delete(). -/
def deletePlansFor (db : List MealPlanRec) (phone : String) (week : Nat) : List MealPlanRec :=
  db.filter (fun r => !(r.phone_number == phone && r.week_number == week))

/-- random.randint(lo, hi) modelled on an explicit entropy input: the value
    is lo plus the input reduced modulo the band width. -/
def randint (lo hi r : Nat) : Nat := lo + r % (hi + 1 - lo)

/-- The week-number draw at the start of _generate_meal_plan: trimester 1
    maps to [1,12], trimester 2 to [13,26], anything else to [27,40]. -/
def chooseWeek (trimester : Option Int) (r : Nat) : Nat :=
  if trimester = some 1 then randint 1 12 r
  else if trimester = some 2 then randint 13 26 r
  else randint 27 40 r

def APOLOGY : String :=
  "Sorry, I couldn\x27t generate your meal plan right now. Please try again later."

/-- The environment of one _generate_meal_plan call: the results the
    completion service returns on successive attempts, and the entropy
    behind the random.randint call. -/
structure GenEnv where
  attempts : List SonarPlanResult := []
  randDraw : Nat := 0
  deriving Repr

/-- BotLogic._generate_meal_plan on the interactive (non-scheduled) path.
    Progress and copy messages sent through the WhatsApp collaborator are
    out of scope; the returned string is the chat reply. -/
def generate_meal_plan (env : GenEnv) (db : List MealPlanRec) (u : User) :
    User × String × List MealPlanRec :=
  let week := chooseWeek u.trimester env.randDraw
  match firstValidPlan (env.attempts.take 3) with
  | none => (u, APOLOGY, db)
  | some validDays =>
      let db2 : List MealPlanRec :=
        { phone_number := u.phone_number, week_number := week, days := validDays } ::
          deletePlansFor db u.phone_number week
      let days := validDays.enum.map
        (fun p => if p.2.dayPresent then p.2.day else "Day " ++ toString (p.1 + 1))
      ({ u with conversation_state := "AWAITING_MEAL_PLAN_DAY" },
       "Here\x27s your Week " ++ toString week ++
         " Meal Plan 🍽️ (type a day to view details):\n\n🗓️ " ++
         pyJoin " | " days,
       db2)

/-! ## Tip cleaning (BotLogic._clean_tip_content) -/

/-- The index of the first closing angle bracket, used to model the
    re.sub removal of angle-bracket tags. -/
def firstGtIdx : List Char → Option Nat
  | [] => none
  | c :: rest => if c = '>' then some 0 else (firstGtIdx rest).map (· + 1)

/-- Scanner for re.sub removing every occurrence of an opening angle
    bracket, one or more non-closing characters, then a closing angle
    bracket.  A positive counter skips the remainder of a matched tag. -/
def stripTagsGo : List Char → Nat → List Char
  | [], _ => []
  | _ :: rest, k + 1 => stripTagsGo rest k
  | c :: rest, 0 =>
      if c = '<' then
        match firstGtIdx rest with
        | some k => if 1 ≤ k then stripTagsGo rest (k + 1) else c :: stripTagsGo rest 0
        | none => c :: stripTagsGo rest 0
      else c :: stripTagsGo rest 0

def stripTags (l : List Char) : List Char := stripTagsGo l 0

/-- Last-character test against the terminal punctuation tuple. -/
def lastIsPunct (l : List Char) : Bool :=
  match l.getLast? with
  | some c => c = '.' || c = '!' || c = '?'
  | none => false

/-- The over-150-characters truncation: first sentence when that is short
    enough, otherwise a hard cut with an ellipsis. -/
def truncateTip (t : List Char) : List Char :=
  if t.length > 150 then
    let first := t.takeWhile (fun c => c ≠ '.')
    if first.length < 150 then first ++ ['.'] else t.take 147 ++ "...".toList
  else t

/-- The final punctuation fix-up: append a period to a nonempty tip that does
    not already end with terminal punctuation. -/
def ensurePunct (t : List Char) : List Char :=
  if !t.isEmpty && !lastIsPunct t then t ++ ['.'] else t

/-- BotLogic._clean_tip_content. -/
def clean_tip_content (tip : String) : String :=
  if tip = "" then "Stay hydrated and eat regularly for optimal nutrient absorption."
  else String.mk (ensurePunct (truncateTip (pyStripL (stripTags tip.toList))))

/-! ## Day rendering (BotLogic._handle_meal_plan_day_selection) -/

/-- Ordered-dict lookup. -/
def assocGet (l : List (String × MealData)) (k : String) : Option MealData :=
  (l.find? (fun p => p.1 == k)).map (fun p => p.2)

/-- Python dict assignment: overwriting keeps the original insertion
    position, a new key is appended. -/
def dictUpsert (k : String) (v : MealData) (d : List (String × MealData)) :
    List (String × MealData) :=
  if d.any (fun p => p.1 == k) then
    d.map (fun p => if p.1 == k then (k, v) else p)
  else d ++ [(k, v)]

def meal_type_mapping : List (String × String) :=
  [("breakfast", "Breakfast"), ("lunch", "Lunch"), ("dinner", "Dinner"),
   ("snack 1", "Snack 1"), ("snack 2", "Snack 2")]

def meal_emojis : List (String × String) :=
  [("Breakfast", "🥣"), ("Lunch", "🍛"), ("Snack 1", "🍎"), ("Snack 2", "🍵"),
   ("Dinner", "🍲")]

def meal_order : List String := ["Breakfast", "Snack 1", "Lunch", "Snack 2", "Dinner"]

def mealEmoji (mealType : String) : String :=
  (((meal_emojis.find? (fun p => p.1 == mealType)).map (fun p => p.2))).getD "🍽️"

/-- The normalization loop mapping raw meal keys to display slot names. -/
def buildMealsDict (meals_data : List (String × MealData)) : List (String × MealData) :=
  meals_data.foldl
    (fun acc p =>
      let normalized := pyStrip (pyLower p.1)
      let mapped :=
        (((meal_type_mapping.find? (fun q => q.1 == normalized)).map (fun q => q.2))).getD
          (pyTitle p.1)
      dictUpsert mapped p.2 acc)
    []

/-- One meal block of the full render: name, description truncated past 80
    characters, and a short-enough nutritional note. -/
def formatMealFull (mealType : String) (details : MealData) : String :=
  let name := details.name.getD "Not specified"
  let description := details.description.getD ""
  let nb := details.nutritional_benefits.getD ""
  let t := mealEmoji mealType ++ " " ++ mealType ++ ": " ++ name
  let t := if description ≠ "" then
      t ++ "\n   " ++
        (if description.length > 80 then description.take 77 ++ "..." else description)
    else t
  if nb ≠ "" ∧ nb.length < 60 then t ++ "\n   ✨ " ++ nb else t

/-- One meal block for slots outside the standard order (no nutrition note). -/
def formatMealExtra (mealType : String) (details : MealData) : String :=
  let name := details.name.getD "Not specified"
  let description := details.description.getD ""
  let t := mealEmoji mealType ++ " " ++ mealType ++ ": " ++ name
  if description ≠ "" then
    t ++ "\n   " ++
      (if description.length > 80 then description.take 77 ++ "..." else description)
  else t

def FOOTER : String :=
  "\n\n📤 Want to share this plan with your partner or midwife? Reply \x27Yes\x27 or \x27No\x27."

/-- The first assembly of the day message: ordered slots with descriptions,
    leftover slots, the tip line, then the share footer. -/
def renderFull (displayDayName : String) (meals : List (String × MealData))
    (tip : String) : String :=
  pyJoin "\n\n"
    (("🗓️ " ++ displayDayName) ::
      (meal_order.filterMap (fun mt => (assocGet meals mt).map (formatMealFull mt)) ++
       (meals.filter (fun p => !(meal_order.contains p.1))).map
         (fun p => formatMealExtra p.1 p.2) ++
       ["🧠 Tip: " ++ tip])) ++ FOOTER

/-- A name-only line of the over-length fallback render. -/
def fallbackLine (meals : List (String × MealData)) (mt : String) : Option String :=
  (assocGet meals mt).map (fun d => mealEmoji mt ++ " " ++ mt ++ ": " ++ d.name.getD "Not specified")

/-- The over-length fallback: the standard slots with names only, the tip
    line, and the share footer (leftover slots and descriptions dropped). -/
def renderFallback (displayDayName : String) (meals : List (String × MealData))
    (tip : String) : String :=
  pyJoin "\n\n"
    (("🗓️ " ++ displayDayName) ::
      (meal_order.filterMap (fallbackLine meals) ++ ["🧠 Tip: " ++ tip])) ++ FOOTER

/-- The day message with the 1500-character transport check: past the budget
    the message is rebuilt without descriptions. -/
def renderDayMessage (displayDayName : String) (meals : List (String × MealData))
    (tip : String) : String :=
  let full := renderFull displayDayName meals tip
  if full.length > 1500 then renderFallback displayDayName meals tip else full

/-- day_data.get with an empty-string default. -/
def dayGet (d : DayDict) : String := if d.dayPresent then d.day else ""

/-- BotLogic._handle_meal_plan_day_selection.  tipCall is the outcome of the
    sonar tip request: none models a raised exception, some c the returned
    dict with optional content key. -/
def handle_meal_plan_day_selection (tipCall : Option (Option String))
    (db : List MealPlanRec) (u : User) (m : String) : User × String :=
  match latestPlanFor db u.phone_number with
  | none =>
      (u, "I don\x27t have a meal plan generated for you yet. Type \x27Generate meal plan\x27 to create one.")
  | some plan =>
      let day_name := pyCapitalize (pyStrip m)
      let days_data := plan.days
      if days_data = [] then
        (u, "Sorry, there was an issue with your meal plan. Please generate a new one.")
      else
        let selected :=
          match days_data.find? (fun d => pyLower (dayGet d) == pyLower day_name) with
          | some d => some d
          | none =>
              days_data.find? (fun d =>
                let dn := pyLower (dayGet d)
                isSubstr (pyLower day_name).toList dn.toList ||
                  ((pyLower day_name).toList.take 3).isPrefixOf dn.toList)
        match selected with
        | none =>
            let available := days_data.enum.map
              (fun p => if p.2.dayPresent then p.2.day else "Day " ++ toString (p.1 + 1))
            (u, "I couldn\x27t find \x27" ++ day_name ++ "\x27 in your meal plan. Available days:\n🗓️ " ++
                pyJoin " | " available ++ "\n\nPlease type one of these day names.")
        | some sd =>
            let display := if sd.dayPresent then sd.day else pyCapitalize day_name
            if sd.meals = [] then
              (u, "Sorry, no meal data found for " ++ display ++ ". Please try generating a new meal plan.")
            else
              let meals := buildMealsDict sd.meals
              let tip_content :=
                match tipCall with
                | none => "Stay hydrated and eat regularly for optimal nutrient absorption."
                | some c =>
                    clean_tip_content
                      (c.getD "Stay hydrated and eat regularly for optimal nutrient absorption.")
              ({ u with conversation_state := "AWAITING_SHARE_CONFIRMATION" },
               renderDayMessage display meals tip_content)

/-! ## Sharing, Q&A and the dispatcher -/

/-- BotLogic._format_meal_plan_for_sharing restricted to one day. -/
def format_meal_plan_day_for_sharing (plan : MealPlanRec) (day_name : String) : String :=
  match plan.days.find? (fun d => pyLower (dayGet d) == pyLower day_name) with
  | none => "Day not found."
  | some sd =>
      pyJoin "\n"
        (("MamáMind Meal Plan - Week " ++ toString plan.week_number ++ ", " ++
            (if sd.dayPresent then sd.day else "Today")) ::
          (sd.meals.map (fun p =>
            p.1 ++ ": " ++ p.2.name.getD "Not specified" ++
              (match p.2.description with
               | some d => if d ≠ "" then " (" ++ d ++ ")" else ""
               | none => "")) ++
           (match sd.tipField with
            | some tp => ["Tip: " ++ tp]
            | none => [])))

/-- BotLogic._handle_share_confirmation.  The text summary and PDF handed to
    the WhatsApp collaborator are side effects; the last-day lookup mirrors
    the minus-one index into the days list (validation guarantees the stored
    list is nonempty). -/
def handle_share_confirmation (db : List MealPlanRec) (u : User) (m : String) :
    User × String :=
  if pyLower m = "yes" then
    match latestPlanFor db u.phone_number with
    | none => (u, "No meal plan found to share.")
    | some plan =>
        let day_name := dayGet (plan.days.getLastD {})
        let _sharedText := format_meal_plan_day_for_sharing plan day_name
        ({ u with conversation_state := "COMPLETED_ONBOARDING" },
         "Plan shared as text! Check the message above for PDF details.")
  else
    ({ u with conversation_state := "COMPLETED_ONBOARDING" },
     "Okay, let\x27s continue. Type a day or ask a question.")

/-- BotLogic._handle_nutrition_question: the completion answer is returned
    with an emergency truncation past 1600 characters; none models the
    exception path with its static fallback. -/
def handle_nutrition_question (qaCall : Option String) (u : User) (_m : String) :
    User × String :=
  match qaCall with
  | none =>
      (u, "⚠️ I\x27m having trouble right now. For pregnancy nutrition questions, please consult your healthcare provider.")
  | some resp =>
      (u, if resp.length > 1600 then resp.take 1550 ++ "..." else resp)

/-- The external collaborators of one process_message call. -/
structure Env where
  dayOfMonth : Nat := 1
  attempts : List SonarPlanResult := []
  randDraw : Nat := 0
  tipCall : Option (Option String) := none
  qaCall : Option String := none
  deriving Repr

/-- Pair a database-free handler result with the untouched plan table. -/
def withDb (p : User × String) (db : List MealPlanRec) :
    User × String × List MealPlanRec :=
  (p.1, p.2, db)

/-- BotLogic.process_message: the global command checks followed by the
    state dispatch.  Note the dispatch has no branch for
    AWAITING_OTHER_DIETARY or AWAITING_OTHER_CONDITIONS: those states fall
    through to the nutrition-question default. -/
def process_message (env : Env) (db : List MealPlanRec) (u : User) (msg : String) :
    User × String × List MealPlanRec :=
  let low := pyLower msg
  if low = "start" ∨ low = "hi" ∨ low = "hello" then
    withDb (handle_onboarding_start env.dayOfMonth
      { u with conversation_state := "ONBOARDING_START" }) db
  else if low = "end" then
    withDb ({ u with conversation_state := "COMPLETED_ONBOARDING" },
      "Thank you for using MamáMind! Your preferences have been saved. Type \x27Start\x27 anytime to chat again.") db
  else if low = "start over" then
    withDb ({ u with conversation_state := "CONFIRM_RESET" },
      "This will clear your profile. Confirm? (Yes/No)") db
  else if low = "settings" ∨ low = "update preferences" then
    let p := handle_onboarding_start env.dayOfMonth
      { u with conversation_state := "ONBOARDING_START" }
    withDb (p.1, "Let\x27s update your preferences. " ++ p.2) db
  else if low = "menu" ∨ low = "help" ∨ low = "options" then
    withDb (u, show_menu u) db
  else if low = "meal plan" ∨ low = "generate meal plan" then
    generate_meal_plan { attempts := env.attempts, randDraw := env.randDraw } db u
  else if u.conversation_state = "CONFIRM_RESET" then
    withDb (handle_reset_confirmation env.dayOfMonth u msg) db
  else if u.conversation_state = "ONBOARDING_START" then
    withDb (handle_onboarding_start env.dayOfMonth u) db
  else if u.conversation_state = "AWAITING_TRIMESTER" then
    withDb (handle_trimester_response u msg) db
  else if u.conversation_state = "AWAITING_DIETARY_PREFERENCES" then
    withDb (handle_dietary_preferences_response u msg) db
  else if u.conversation_state = "AWAITING_ALLERGIES" then
    withDb (handle_allergies_response u msg) db
  else if u.conversation_state = "AWAITING_CULTURAL_PREFERENCES" then
    withDb (handle_cultural_preferences_response u msg) db
  else if u.conversation_state = "AWAITING_PREGNANCY_CONDITIONS" then
    withDb (handle_pregnancy_conditions_response u msg) db
  else if u.conversation_state = "AWAITING_USAGE_PREFERENCES" then
    withDb (handle_usage_preferences_response u msg) db
  else if u.conversation_state = "AWAITING_MEAL_PLAN_DAY" then
    withDb (handle_meal_plan_day_selection env.tipCall db u msg) db
  else if u.conversation_state = "AWAITING_SHARE_CONFIRMATION" then
    withDb (handle_share_confirmation db u msg) db
  else
    withDb (handle_nutrition_question env.qaCall u msg) db

/-! ## Objects used by the analysis -/

/-- The trimester bands of the week-number draw. -/
def weekBand (t : Int) : Nat × Nat :=
  if t = 1 then (1, 12) else if t = 2 then (13, 26) else (27, 40)

/-- Rewrite every meal description pointwise (names and keys untouched). -/
def descMap (f : String → MealData → Option String)
    (meals : List (String × MealData)) : List (String × MealData) :=
  meals.map (fun p => (p.1, { p.2 with description := f p.1 p.2 }))

/-- n-fold repetition of a string. -/
def rep (s : String) : Nat → String
  | 0 => ""
  | n + 1 => s ++ rep s n

/-- A 1600-character meal name (50 blocks of 32 characters). -/
def bigMealName : String := rep "xxxxxxxxxxxxxxxxxxxxxxxxxxxxxxxx" 50

/-- A day whose single meal has an extremely long name and no description. -/
def cexMeals : List (String × MealData) := [("Breakfast", { name := some bigMealName })]

def userOtherDietary : User :=
  { phone_number := "whatsapp:+15550000001", conversation_state := "AWAITING_OTHER_DIETARY" }

def userOtherConditions : User :=
  { phone_number := "whatsapp:+15550000001", conversation_state := "AWAITING_OTHER_CONDITIONS" }

def envQA : Env := { qaCall := some "General nutrition answer." }

/-- A fully onboarded profile used to exercise reset_preferences. -/
def populatedUser : User :=
  { phone_number := "whatsapp:+15551230000", trimester := some 2,
    dietary_preferences := ["Vegan"], other_dietary_preferences := "pescatarian",
    allergies := "peanuts", cultural_preferences := "Yoruba",
    pregnancy_conditions := ["Anemia or low iron"], other_conditions := "fatigue",
    wants_meal_plans := true, wants_nutrition_tips := true,
    wants_recipe_suggestions := true, wants_nutrition_qa := true,
    conversation_state := "COMPLETED_ONBOARDING" }

/-! ## Helper lemmas -/

lemma firstValidPlan_none {l : List SonarPlanResult}
    (h : ∀ a ∈ l, validatePlan a = none) : firstValidPlan l = none := by
  induction l with
  | nil => rfl
  | cons a rest ih =>
      have ha := h a (List.mem_cons_self a rest)
      simp only [firstValidPlan, ha]
      exact ih fun x hx => h x (List.mem_cons_of_mem a hx)

/-! ## Claim theorems -/

/-- C4: when the completion call or the validation of its payload fails on
    all three retry attempts, _generate_meal_plan returns the fixed apology
    text and the MealPlan table is untouched — no row is created or
    overwritten for any (user, week_number); the same holds for the full
    process_message path on the meal-plan command. -/
theorem c4_retries_exhausted_no_persist (env : Env) (db : List MealPlanRec) (u : User)
    (h : ∀ a ∈ env.attempts.take 3, validatePlan a = none) :
    generate_meal_plan { attempts := env.attempts, randDraw := env.randDraw } db u
        = (u, APOLOGY, db)
    ∧ process_message env db u "meal plan" = (u, APOLOGY, db) := by
  have hfv : firstValidPlan (env.attempts.take 3) = none := firstValidPlan_none h
  constructor
  · simp [generate_meal_plan, hfv]
  · have hlow : pyLower "meal plan" = "meal plan" := by decide
    simp [process_message, hlow, generate_meal_plan, hfv]

/-- Witness for C4 at three raised attempts. -/
theorem c4_retries_exhausted_no_persist_witness :
    generate_meal_plan
        { attempts := [SonarPlanResult.exn, SonarPlanResult.exn, SonarPlanResult.exn],
          randDraw := 7 } [] (freshUser "whatsapp:+15550000002")
        = (freshUser "whatsapp:+15550000002", APOLOGY, [])
    ∧ process_message
        { attempts := [SonarPlanResult.exn, SonarPlanResult.exn, SonarPlanResult.exn],
          randDraw := 7 } [] (freshUser "whatsapp:+15550000002") "meal plan"
        = (freshUser "whatsapp:+15550000002", APOLOGY, []) :=
  c4_retries_exhausted_no_persist
    { attempts := [SonarPlanResult.exn, SonarPlanResult.exn, SonarPlanResult.exn],
      randDraw := 7 } [] (freshUser "whatsapp:+15550000002") (by decide)

/-- C7: for a trimester in the set 1..3 the drawn week number lies in the
    band [1,12] / [13,26] / [27,40] of that trimester, the draw is a function
    of the per-request entropy (two requests can yield different weeks for
    the same user, so the week is not fixed per user), and the stored row of
    a successful generation carries exactly that freshly drawn week. -/
theorem c7_week_number_band (t : Int) (r : Nat) (h : t = 1 ∨ t = 2 ∨ t = 3) :
    ((weekBand t).1 ≤ chooseWeek (some t) r ∧ chooseWeek (some t) r ≤ (weekBand t).2)
    ∧ (∃ r1 r2 : Nat, chooseWeek (some t) r1 ≠ chooseWeek (some t) r2)
    ∧ ∀ (env : GenEnv) (db : List MealPlanRec) (u : User) (days : List DayDict),
        firstValidPlan (env.attempts.take 3) = some days →
        (generate_meal_plan env db u).2.2 =
          { phone_number := u.phone_number,
            week_number := chooseWeek u.trimester env.randDraw,
            days := days } ::
            deletePlansFor db u.phone_number (chooseWeek u.trimester env.randDraw) := by
  refine ⟨?_, ?_, ?_⟩
  · rcases h with rfl | rfl | rfl <;> simp [weekBand, chooseWeek, randint] <;> omega
  · rcases h with rfl | rfl | rfl
    · exact ⟨0, 1, by decide⟩
    · exact ⟨0, 1, by decide⟩
    · exact ⟨0, 1, by decide⟩
  · intro env db u days hv
    simp [generate_meal_plan, hv]

/-- Witness for C7 at trimester 2 and entropy 5. -/
theorem c7_week_number_band_witness :
    ((weekBand 2).1 ≤ chooseWeek (some 2) 5 ∧ chooseWeek (some 2) 5 ≤ (weekBand 2).2)
    ∧ (∃ r1 r2 : Nat, chooseWeek (some 2) r1 ≠ chooseWeek (some 2) r2) :=
  ⟨(c7_week_number_band 2 5 (by decide)).1, (c7_week_number_band 2 5 (by decide)).2.1⟩

/-- C10: in AWAITING_SHARE_CONFIRMATION, a yes reply with no stored MealPlan
    returns the no-plan notice and leaves conversation_state untouched (the
    early return skips the COMPLETED_ONBOARDING assignment every other exit
    of this state performs). -/
theorem c10_share_without_plan (env : Env) (db : List MealPlanRec) (u : User) (m : String)
    (hyes : pyLower m = "yes") (hplan : latestPlanFor db u.phone_number = none)
    (hstate : u.conversation_state = "AWAITING_SHARE_CONFIRMATION") :
    handle_share_confirmation db u m = (u, "No meal plan found to share.")
    ∧ process_message env db u m = (u, "No meal plan found to share.", db) := by
  have h1 : handle_share_confirmation db u m = (u, "No meal plan found to share.") := by
    simp [handle_share_confirmation, hyes, hplan]
  refine ⟨h1, ?_⟩
  simp [process_message, hyes, hstate, withDb, h1]

/-- Witness for C10: empty plan table, reply Yes. -/
theorem c10_share_without_plan_witness :
    handle_share_confirmation []
        { phone_number := "whatsapp:+15550000003",
          conversation_state := "AWAITING_SHARE_CONFIRMATION" } "Yes"
        = ({ phone_number := "whatsapp:+15550000003",
             conversation_state := "AWAITING_SHARE_CONFIRMATION" },
           "No meal plan found to share.")
    ∧ process_message {} []
        { phone_number := "whatsapp:+15550000003",
          conversation_state := "AWAITING_SHARE_CONFIRMATION" } "Yes"
        = ({ phone_number := "whatsapp:+15550000003",
             conversation_state := "AWAITING_SHARE_CONFIRMATION" },
           "No meal plan found to share.", []) :=
  c10_share_without_plan {} []
    { phone_number := "whatsapp:+15550000003",
      conversation_state := "AWAITING_SHARE_CONFIRMATION" } "Yes"
    (by decide) rfl rfl

/-- C1: the state dispatch of process_message has no branch for
    AWAITING_OTHER_DIETARY / AWAITING_OTHER_CONDITIONS, so a free-text reply
    in those states falls through to the nutrition-question default: the
    profile is returned unchanged (no note stored, state not advanced),
    while the dedicated — but never dispatched — handlers would have stored
    the note and advanced the state as the spec describes. -/
theorem c1_other_states_fall_through_to_qa :
    process_message envQA [] userOtherDietary "halal only"
        = (userOtherDietary, "General nutrition answer.", [])
    ∧ process_message envQA [] userOtherConditions "mild anemia"
        = (userOtherConditions, "General nutrition answer.", [])
    ∧ (handle_other_dietary_response userOtherDietary "halal only").1
        = { userOtherDietary with other_dietary_preferences := "halal only",
                                  conversation_state := "AWAITING_ALLERGIES" }
    ∧ (handle_other_conditions_response userOtherConditions "mild anemia").1
        = { userOtherConditions with other_conditions := "mild anemia",
                                     conversation_state := "AWAITING_USAGE_PREFERENCES" } := by
  decide

/-- C5 counterexample: immediately after reset_preferences the state is the
    model default START, which is not the initial onboarding state
    ONBOARDING_START (nor any of the thirteen machine states). -/
theorem c5_reset_state_counterexample :
    (populatedUser.reset_preferences).conversation_state = "START"
    ∧ "START" ≠ "ONBOARDING_START"
    ∧ "START" ∉ STATE_NAMES := by decide

/-- C5 amended: reset_preferences returns every enumerated profile field to
    its default or empty value, and sets conversation_state to the model
    default START; ONBOARDING_START is assigned only afterwards by the
    reset-confirmation handler. -/
theorem c5_reset_preferences_defaults (u : User) :
    u.reset_preferences.trimester = none
    ∧ u.reset_preferences.dietary_preferences = []
    ∧ u.reset_preferences.allergies = ""
    ∧ u.reset_preferences.cultural_preferences = ""
    ∧ u.reset_preferences.pregnancy_conditions = []
    ∧ u.reset_preferences.wants_meal_plans = false
    ∧ u.reset_preferences.wants_nutrition_tips = false
    ∧ u.reset_preferences.wants_recipe_suggestions = false
    ∧ u.reset_preferences.wants_nutrition_qa = false
    ∧ u.reset_preferences.conversation_state = "START" :=
  ⟨rfl, rfl, rfl, rfl, rfl, rfl, rfl, rfl, rfl, rfl⟩

/-- C2 counterexample: a freshly created profile is not in an unset state —
    its conversation_state holds the model default START, a value outside
    the thirteen defined machine states; the same value is restored by
    reset_preferences. -/
theorem c2_initial_state_counterexample :
    (freshUser "whatsapp:+15551119999").conversation_state = "START"
    ∧ "START" ∉ STATE_NAMES
    ∧ (populatedUser.reset_preferences).conversation_state = "START" := by decide

/-! ## Parsing lemmas for the selection steps -/

lemma mem_dropWhile_or (p : Char → Bool) :
    ∀ (l : List Char) (c : Char), c ∈ l → c ∈ l.dropWhile p ∨ p c = true := by
  intro l
  induction l with
  | nil => simp
  | cons a rest ih =>
      intro c hc
      by_cases hp : p a
      · rcases List.mem_cons.mp hc with rfl | hr
        · right; exact hp
        · simpa [List.dropWhile_cons, hp] using ih c hr
      · left; simpa [List.dropWhile_cons, hp] using hc

lemma mem_pyStripL_or (l : List Char) (c : Char) (hc : c ∈ l) :
    c ∈ pyStripL l ∨ isPyWS c = true := by
  rcases mem_dropWhile_or isPyWS l c hc with h1 | h1
  · have h2 : c ∈ (l.dropWhile isPyWS).reverse := List.mem_reverse.mpr h1
    rcases mem_dropWhile_or isPyWS _ c h2 with h3 | h3
    · left; exact List.mem_reverse.mpr h3
    · right; exact h3
  · right; exact h1

lemma splitComma_single : ∀ (l : List Char), ',' ∉ l → splitComma l = [l] := by
  intro l
  induction l with
  | nil => intro _; rfl
  | cons c rest ih =>
      intro h
      have hc : ¬(c = ',') := fun hh => h (hh ▸ List.mem_cons_self c rest)
      have hrest : ',' ∉ rest := fun hh => h (List.mem_cons_of_mem c hh)
      simp [splitComma, hc, ih hrest]

/-- A message that strips to the bare digit five always parses to the
    singleton selection list. -/
lemma strip_five_parse (m : String) (h : pyStrip m = "5") :
    parseSelections m = some [5] := by
  have hl : pyStripL m.toList = "5".toList := by
    have h2 := congrArg String.toList h
    simpa [pyStrip] using h2
  have hnc : ',' ∉ m.toList := by
    intro hmem
    rcases mem_pyStripL_or m.toList ',' hmem with h1 | h1
    · rw [hl] at h1; simp at h1
    · simp [isPyWS] at h1
  have hint : pyInt m.toList = some 5 := by
    unfold pyInt
    rw [hl]
    decide
  have hsplit : splitComma m.toList = [m.toList] := splitComma_single m.toList hnc
  unfold parseSelections
  rw [hsplit, List.mapM_cons, List.mapM_nil, hint]
  rfl

/-- C3 counterexample: with the dietary question just asked, the out-of-range
    reply 7 leaves the profile (state included) unchanged but the emitted
    message is a validation error, not the dietary prompt that was shown on
    entering the state — and the non-numeric reply draws yet another text. -/
theorem c3_same_prompt_counterexample :
    (handle_dietary_preferences_response
        (handle_trimester_response (freshUser "whatsapp:+15550000004") "1").1 "7").1
      = (handle_trimester_response (freshUser "whatsapp:+15550000004") "1").1
    ∧ (handle_dietary_preferences_response
        (handle_trimester_response (freshUser "whatsapp:+15550000004") "1").1 "7").2
      ≠ (handle_trimester_response (freshUser "whatsapp:+15550000004") "1").2
    ∧ (handle_dietary_preferences_response
        (handle_trimester_response (freshUser "whatsapp:+15550000004") "1").1 "7").2
      ≠ (handle_dietary_preferences_response
          (handle_trimester_response (freshUser "whatsapp:+15550000004") "1").1 "oops").2 := by
  decide

/-- C3 amended: in each of the four selection states, a non-numeric or
    out-of-range reply returns the profile completely unchanged (state,
    preference and condition sets included) together with the fixed
    validation error message of that state — a re-prompt distinct from the
    original question text. -/
theorem c3_invalid_selection_rejected (u : User) (m : String) :
    (pyInt m.toList = none →
        handle_trimester_response u m
          = (u, "Please enter a valid number for your trimester."))
    ∧ (∀ t : Int, pyInt m.toList = some t → t ∉ TRIMESTERS →
        handle_trimester_response u m
          = (u, "Please enter a valid trimester (1, 2, or 3)."))
    ∧ (parseSelections m = none →
        handle_dietary_preferences_response u m
          = (u, "Please enter valid numbers for your dietary preferences."))
    ∧ (∀ sels, parseSelections m = some sels →
        outOfRange sels DIETARY_PREFERENCES.length = true →
        handle_dietary_preferences_response u m
          = (u, "Please enter valid numbers between 1 and 6."))
    ∧ (parseSelections m = none →
        handle_pregnancy_conditions_response u m
          = (u, "Please enter valid numbers for your pregnancy conditions."))
    ∧ (∀ sels, parseSelections m = some sels →
        outOfRange sels PREGNANCY_CONDITIONS.length = true →
        handle_pregnancy_conditions_response u m
          = (u, "Please enter valid numbers between 1 and 6."))
    ∧ (parseSelections m = none →
        handle_usage_preferences_response u m
          = (u, "Please enter valid numbers for your usage preferences."))
    ∧ (∀ sels, parseSelections m = some sels →
        outOfRange sels USAGE_PREFERENCES.length = true →
        handle_usage_preferences_response u m
          = (u, "Please enter valid numbers between 1 and 5.")) := by
  refine ⟨?_, ?_, ?_, ?_, ?_, ?_, ?_, ?_⟩
  · intro h
    have h2 : pyInt m.data = none := h
    simp [handle_trimester_response, h2]
  · intro t ht hmem
    have ht2 : pyInt m.data = some t := ht
    simp [handle_trimester_response, ht2, hmem]
  · intro h; simp [handle_dietary_preferences_response, h]
  · intro sels hs hr
    simp [handle_dietary_preferences_response, hs, hr]
    rfl
  · intro h; simp [handle_pregnancy_conditions_response, h]
  · intro sels hs hr
    simp [handle_pregnancy_conditions_response, hs, hr]
    rfl
  · intro h
    by_cases h5 : pyStrip m = "5"
    · rw [strip_five_parse m h5] at h; exact absurd h (by simp)
    · simp [handle_usage_preferences_response, h5, h]
  · intro sels hs hr
    by_cases h5 : pyStrip m = "5"
    · rw [strip_five_parse m h5] at hs
      have hs2 : sels = [5] := by simpa using hs.symm
      subst hs2
      exact absurd hr (by decide)
    · simp [handle_usage_preferences_response, h5, hs, hr]
      rfl

/-- Witness for C3 across three invalid replies. -/
theorem c3_invalid_selection_rejected_witness :
    handle_trimester_response (freshUser "whatsapp:+15550000005") "abc"
      = (freshUser "whatsapp:+15550000005", "Please enter a valid number for your trimester.")
    ∧ handle_dietary_preferences_response (freshUser "whatsapp:+15550000005") "7"
      = (freshUser "whatsapp:+15550000005", "Please enter valid numbers between 1 and 6.")
    ∧ handle_usage_preferences_response (freshUser "whatsapp:+15550000005") "1,x"
      = (freshUser "whatsapp:+15550000005", "Please enter valid numbers for your usage preferences.") :=
  ⟨(c3_invalid_selection_rejected (freshUser "whatsapp:+15550000005") "abc").1 (by decide),
   (c3_invalid_selection_rejected (freshUser "whatsapp:+15550000005") "7").2.2.2.1
     [7] (by decide) (by decide),
   (c3_invalid_selection_rejected (freshUser "whatsapp:+15550000005") "1,x").2.2.2.2.2.2.1
     (by decide)⟩

/-! ## The Other selection (C8) -/

lemma dietary_fold_other (sels : List Int) :
    ∀ (p : User × Bool),
      ((6 : Int) ∈ sels ∨ (p.2 = true ∧ p.1.conversation_state = "AWAITING_OTHER_DIETARY")) →
      (sels.foldl dietaryStep p).2 = true ∧
        (sels.foldl dietaryStep p).1.conversation_state = "AWAITING_OTHER_DIETARY" := by
  induction sels with
  | nil =>
      intro p h
      rcases h with h | h
      · simp at h
      · simpa using h
  | cons s rest ih =>
      intro p h
      rw [List.foldl_cons]
      apply ih
      rcases h with hmem | hflag
      · rcases List.mem_cons.mp hmem with rfl | hrest
        · right
          dsimp only [dietaryStep]
          split_ifs with hname
          · exact ⟨rfl, rfl⟩
          · exact absurd (by decide) hname
        · left; exact hrest
      · right
        dsimp only [dietaryStep]
        split_ifs with hname
        · exact ⟨rfl, rfl⟩
        · exact ⟨hflag.1, hflag.2⟩

lemma condition_fold_other (sels : List Int) :
    ∀ (p : User × Bool),
      ((6 : Int) ∈ sels ∨ (p.2 = true ∧ p.1.conversation_state = "AWAITING_OTHER_CONDITIONS")) →
      (sels.foldl conditionStep p).2 = true ∧
        (sels.foldl conditionStep p).1.conversation_state = "AWAITING_OTHER_CONDITIONS" := by
  induction sels with
  | nil =>
      intro p h
      rcases h with h | h
      · simp at h
      · simpa using h
  | cons s rest ih =>
      intro p h
      rw [List.foldl_cons]
      apply ih
      rcases h with hmem | hflag
      · rcases List.mem_cons.mp hmem with rfl | hrest
        · right
          dsimp only [conditionStep]
          split_ifs with hname hnone
          · exact ⟨rfl, rfl⟩
          · exact absurd (by decide) hname
          · exact absurd (by decide) hname
        · left; exact hrest
      · right
        dsimp only [conditionStep]
        split_ifs with hname hnone
        · exact ⟨rfl, rfl⟩
        · exact ⟨hflag.1, hflag.2⟩
        · exact ⟨hflag.1, hflag.2⟩

/-- C8: in the dietary-preference and pregnancy-condition steps, every valid
    comma-separated selection containing the Other index (6) moves the state
    to the matching free-text-capture state and asks for the free text,
    whatever the co-selected indices and their order. -/
theorem c8_other_selection_transitions (u : User) (m : String) (sels : List Int)
    (hp : parseSelections m = some sels)
    (hr : outOfRange sels DIETARY_PREFERENCES.length = false)
    (h6 : (6 : Int) ∈ sels) :
    (handle_dietary_preferences_response u m).1.conversation_state
        = "AWAITING_OTHER_DIETARY"
    ∧ (handle_dietary_preferences_response u m).2
        = "Please specify your other dietary preferences:"
    ∧ (handle_pregnancy_conditions_response u m).1.conversation_state
        = "AWAITING_OTHER_CONDITIONS"
    ∧ (handle_pregnancy_conditions_response u m).2
        = "Please specify your other pregnancy conditions:" := by
  have hd := dietary_fold_other sels ({ u with dietary_preferences := [] }, false) (Or.inl h6)
  have hc := condition_fold_other sels ({ u with pregnancy_conditions := [] }, false) (Or.inl h6)
  have hr2 : outOfRange sels PREGNANCY_CONDITIONS.length = false := by
    simpa [outOfRange, DIETARY_PREFERENCES, PREGNANCY_CONDITIONS] using hr
  refine ⟨?_, ?_, ?_, ?_⟩ <;>
    simp [handle_dietary_preferences_response, handle_pregnancy_conditions_response,
      hp, hr, hr2, hd.1, hd.2, hc.1, hc.2]

/-! ## Tip cleaning bounds (C9) -/

lemma lastIsPunct_append_dot (l : List Char) : lastIsPunct (l ++ ['.']) = true := by
  simp [lastIsPunct, List.getLast?_append]

lemma lastIsPunct_append_ellipsis (l : List Char) :
    lastIsPunct (l ++ "...".toList) = true := by
  simp [lastIsPunct, List.getLast?_append, show ("...".toList : List Char) = ['.', '.', '.'] from rfl]

lemma truncateTip_cases (t : List Char) :
    ((truncateTip t).length ≤ 150 ∧ lastIsPunct (truncateTip t) = true ∧ truncateTip t ≠ [])
    ∨ (truncateTip t = t ∧ t.length ≤ 150) := by
  by_cases h1 : t.length > 150
  · by_cases h2 : (t.takeWhile (fun c => c ≠ '.')).length < 150
    · have ht : truncateTip t = t.takeWhile (fun c => c ≠ '.') ++ ['.'] := by
        unfold truncateTip
        rw [if_pos h1, if_pos h2]
      left
      rw [ht]
      refine ⟨?_, lastIsPunct_append_dot _, by simp⟩
      simp only [List.length_append, List.length_singleton]
      omega
    · have ht : truncateTip t = t.take 147 ++ "...".toList := by
        unfold truncateTip
        rw [if_pos h1, if_neg h2]
      left
      rw [ht]
      refine ⟨?_, lastIsPunct_append_ellipsis _, by simp⟩
      simp only [List.length_append, List.length_take,
        show ("...".toList : List Char).length = 3 from rfl]
      omega
  · have ht : truncateTip t = t := by
      unfold truncateTip
      rw [if_neg h1]
    right
    exact ⟨ht, by omega⟩

lemma ensurePunct_length (t : List Char) : (ensurePunct t).length ≤ t.length + 1 := by
  unfold ensurePunct
  split_ifs
  · simp
  · omega

lemma ensurePunct_punct (t : List Char) (h : t ≠ []) :
    lastIsPunct (ensurePunct t) = true := by
  unfold ensurePunct
  split_ifs with hif
  · exact lastIsPunct_append_dot t
  · by_cases hp : lastIsPunct t = true
    · exact hp
    · exfalso
      apply hif
      have he : t.isEmpty = false := by simpa [List.isEmpty_iff] using h
      have hp2 : lastIsPunct t = false := Bool.eq_false_iff.mpr hp
      rw [he, hp2]
      rfl

lemma ensurePunct_ne_nil (t : List Char) (h : t ≠ []) : ensurePunct t ≠ [] := by
  unfold ensurePunct
  split_ifs
  · simp
  · exact h

/-- C9 amended: the cleaned tip is at most 151 characters (one more than the
    claimed 150: a 150-character tip lacking terminal punctuation still gets
    a period appended); a nonempty result always ends with terminal
    punctuation, and the result is empty exactly when a nonempty input
    strips to nothing after tag removal and trimming — in that one case the
    terminal-punctuation guarantee fails as well. -/
theorem c9_clean_tip_bounds (s : String) :
    (clean_tip_content s).length ≤ 151
    ∧ (clean_tip_content s ≠ "" → lastIsPunct (clean_tip_content s).toList = true)
    ∧ (clean_tip_content s = "" → s ≠ "" ∧ pyStripL (stripTags s.toList) = []) := by
  by_cases hs : s = ""
  · subst hs
    exact ⟨by decide, fun _ => by decide, fun h => absurd h (by decide)⟩
  · unfold clean_tip_content
    rw [if_neg hs]
    by_cases h0 : pyStripL (stripTags s.toList) = []
    · rw [h0]
      refine ⟨by decide, ?_, fun _ => ⟨hs, rfl⟩⟩
      intro hne
      exact absurd (show String.mk (ensurePunct (truncateTip [])) = "" by decide) hne
    · have hne : truncateTip (pyStripL (stripTags s.toList)) ≠ [] := by
        rcases truncateTip_cases (pyStripL (stripTags s.toList)) with hc | hc
        · exact hc.2.2
        · rw [hc.1]; exact h0
      have h150 : (truncateTip (pyStripL (stripTags s.toList))).length ≤ 150 := by
        rcases truncateTip_cases (pyStripL (stripTags s.toList)) with hc | hc
        · exact hc.1
        · rw [hc.1]; exact hc.2
      refine ⟨?_, ?_, ?_⟩
      · have he := ensurePunct_length (truncateTip (pyStripL (stripTags s.toList)))
        have hl : (String.mk (ensurePunct (truncateTip (pyStripL (stripTags s.toList))))).length
            = (ensurePunct (truncateTip (pyStripL (stripTags s.toList)))).length := rfl
        omega
      · intro _
        have hp := ensurePunct_punct _ hne
        simpa using hp
      · intro hempty
        exact absurd (congrArg String.data hempty) (ensurePunct_ne_nil _ hne)

set_option maxRecDepth 8000 in
/-- C9 counterexample: 150 letters without terminal punctuation clean to 151
    characters, above the claimed 150-character bound, and an input that is a
    bare pseudo-tag cleans to the empty string, which ends with no terminal
    punctuation at all. -/
theorem c9_length_counterexample :
    150 < (clean_tip_content (String.mk (List.replicate 150 'a'))).length
    ∧ clean_tip_content "<think>" = "" := by decide

/-- Witness for C9 on a short tip without punctuation. -/
theorem c9_clean_tip_bounds_witness :
    (clean_tip_content "Drink water").length ≤ 151
    ∧ lastIsPunct (clean_tip_content "Drink water").toList = true :=
  ⟨(c9_clean_tip_bounds "Drink water").1,
   (c9_clean_tip_bounds "Drink water").2.1 (by decide)⟩

/-- Witness for C8 at the selection 6,1. -/
theorem c8_other_selection_transitions_witness :
    (handle_dietary_preferences_response (freshUser "whatsapp:+15550000006") "6,1").1.conversation_state
        = "AWAITING_OTHER_DIETARY"
    ∧ (handle_pregnancy_conditions_response (freshUser "whatsapp:+15550000006") "6,1").1.conversation_state
        = "AWAITING_OTHER_CONDITIONS" :=
  ⟨(c8_other_selection_transitions (freshUser "whatsapp:+15550000006") "6,1" [6, 1]
      (by decide) (by decide) (by decide)).1,
   (c8_other_selection_transitions (freshUser "whatsapp:+15550000006") "6,1" [6, 1]
      (by decide) (by decide) (by decide)).2.2.1⟩

/-! ## Day-render length budget (C6) -/

lemma assocGet_descMap_name (f : String → MealData → Option String)
    (meals : List (String × MealData)) (mt : String) :
    (assocGet (descMap f meals) mt).map (fun d => d.name)
      = (assocGet meals mt).map (fun d => d.name) := by
  induction meals with
  | nil => rfl
  | cons p rest ih =>
      simp only [descMap, List.map_cons, assocGet, List.find?]
      cases hk : (p.1 == mt)
      · simpa [descMap, assocGet] using ih
      · rfl

lemma fallbackLine_eq (meals : List (String × MealData)) (mt : String) :
    fallbackLine meals mt
      = ((assocGet meals mt).map (fun d => d.name)).map
          (fun n => mealEmoji mt ++ " " ++ mt ++ ": " ++ n.getD "Not specified") := by
  unfold fallbackLine
  cases assocGet meals mt <;> rfl

lemma fallbackLine_descMap (f : String → MealData → Option String)
    (meals : List (String × MealData)) (mt : String) :
    fallbackLine (descMap f meals) mt = fallbackLine meals mt := by
  rw [fallbackLine_eq, fallbackLine_eq, assocGet_descMap_name]

/-- C6 amended: the no-description fallback render is entirely independent of
    the meal descriptions — rewriting every description arbitrarily leaves
    its output unchanged, so arbitrarily long descriptions alone can never
    push it past the budget — and whenever that descriptions-free render fits
    in the 1500-character budget, the final day message does too.  Long meal
    names, by contrast, can still overflow the budget (see the
    counterexample). -/
theorem c6_fallback_render_properties (dayName tip : String)
    (meals : List (String × MealData)) (f : String → MealData → Option String) :
    renderFallback dayName (descMap f meals) tip = renderFallback dayName meals tip
    ∧ ((renderFallback dayName meals tip).length ≤ 1500 →
        (renderDayMessage dayName meals tip).length ≤ 1500) := by
  constructor
  · unfold renderFallback
    have hf : fallbackLine (descMap f meals) = fallbackLine meals := by
      funext mt
      exact fallbackLine_descMap f meals mt
    rw [hf]
  · intro h
    by_cases hfull : (renderFull dayName meals tip).length > 1500
    · simpa [renderDayMessage, hfull] using h
    · simp only [renderDayMessage, hfull, if_neg, ite_false]
      omega

/-- Witness for C6: a short day fits the budget however its description is
    rewritten. -/
theorem c6_fallback_render_properties_witness :
    renderFallback "Monday"
        (descMap (fun _ _ => some "an arbitrarily rewritten description")
          [("Breakfast", { name := some "Oats" })]) "Tip."
      = renderFallback "Monday" [("Breakfast", { name := some "Oats" })] "Tip."
    ∧ (renderDayMessage "Monday" [("Breakfast", { name := some "Oats" })] "Tip.").length ≤ 1500 :=
  ⟨(c6_fallback_render_properties "Monday" "Tip." [("Breakfast", { name := some "Oats" })]
      (fun _ _ => some "an arbitrarily rewritten description")).1,
   (c6_fallback_render_properties "Monday" "Tip." [("Breakfast", { name := some "Oats" })]
      (fun _ _ => some "an arbitrarily rewritten description")).2 (by decide)⟩

lemma rep_length (s : String) (n : Nat) : (rep s n).length = n * s.length := by
  induction n with
  | zero => simp [rep]
  | succ k ih =>
      simp [rep, String.length_append, ih]
      ring

lemma bigMealName_length : bigMealName.length = 1600 := by
  rw [bigMealName, rep_length]
  rfl

lemma cex_full_lines :
    meal_order.filterMap (fun mt => (assocGet cexMeals mt).map (formatMealFull mt))
      = [formatMealFull "Breakfast" { name := some bigMealName }] := rfl

lemma cex_extra_lines : cexMeals.filter (fun p => !(meal_order.contains p.1)) = [] := rfl

lemma cex_meal_line :
    formatMealFull "Breakfast" { name := some bigMealName }
      = "🥣" ++ " " ++ "Breakfast" ++ ": " ++ bigMealName := rfl

lemma cex_fallback_lines :
    meal_order.filterMap (fallbackLine cexMeals)
      = ["🥣" ++ " " ++ "Breakfast" ++ ": " ++ bigMealName] := rfl

lemma cex_full_length : (renderFull "Monday" cexMeals "Tip.").length = 1715 := by
  unfold renderFull
  rw [cex_full_lines, cex_extra_lines, cex_meal_line]
  simp only [List.map_nil, List.nil_append, List.append_nil, List.cons_append,
    List.singleton_append, pyJoin, String.length_append, bigMealName_length]
  decide

lemma cex_fallback_length : (renderFallback "Monday" cexMeals "Tip.").length = 1715 := by
  unfold renderFallback
  rw [cex_fallback_lines]
  simp only [List.cons_append, List.singleton_append, pyJoin,
    String.length_append, bigMealName_length]
  decide

/-- C6 counterexample: a day whose single meal carries a 1600-character name
    (and no description at all) overflows the budget, the fallback re-render
    is applied, and the final message still exceeds 1500 characters — the
    claimed invariant fails because the fallback keeps meal names unbounded.
    -/
theorem c6_length_budget_counterexample :
    1500 < (renderFull "Monday" cexMeals "Tip.").length
    ∧ renderDayMessage "Monday" cexMeals "Tip." = renderFallback "Monday" cexMeals "Tip."
    ∧ 1500 < (renderDayMessage "Monday" cexMeals "Tip.").length := by
  have h1 : 1500 < (renderFull "Monday" cexMeals "Tip.").length := by
    rw [cex_full_length]
    omega
  have h2 : renderDayMessage "Monday" cexMeals "Tip." = renderFallback "Monday" cexMeals "Tip." := by
    unfold renderDayMessage
    rw [if_pos h1]
  refine ⟨h1, h2, ?_⟩
  rw [h2, cex_fallback_length]
  omega

/-! ## The state-machine invariant (C2) -/

/-- The new state is either untouched or one of the thirteen machine states. -/
def stateInv (old new : String) : Prop := new = old ∨ new ∈ STATE_NAMES

lemma stateInv_same (old : String) : stateInv old old := Or.inl rfl

lemma onboarding_start_state (d : Nat) (u : User) :
    stateInv u.conversation_state (handle_onboarding_start d u).1.conversation_state :=
  Or.inr (show "AWAITING_TRIMESTER" ∈ STATE_NAMES by decide)

lemma reset_confirmation_state (d : Nat) (u : User) (m : String) :
    stateInv u.conversation_state (handle_reset_confirmation d u m).1.conversation_state := by
  unfold handle_reset_confirmation
  split_ifs
  · exact Or.inr (show "AWAITING_TRIMESTER" ∈ STATE_NAMES by decide)
  · exact Or.inr (show "COMPLETED_ONBOARDING" ∈ STATE_NAMES by decide)

lemma trimester_state (u : User) (m : String) :
    stateInv u.conversation_state (handle_trimester_response u m).1.conversation_state := by
  unfold handle_trimester_response
  rcases pyInt m.toList with _ | t
  · exact Or.inl rfl
  · dsimp only
    by_cases h : t ∈ TRIMESTERS
    · rw [if_pos h]
      exact Or.inr (show "AWAITING_DIETARY_PREFERENCES" ∈ STATE_NAMES by decide)
    · rw [if_neg h]
      exact Or.inl rfl

lemma dietary_fold_state (sels : List Int) :
    ∀ (p : User × Bool),
      (sels.foldl dietaryStep p).1.conversation_state = p.1.conversation_state
      ∨ (sels.foldl dietaryStep p).1.conversation_state = "AWAITING_OTHER_DIETARY" := by
  induction sels with
  | nil => intro p; exact Or.inl rfl
  | cons s rest ih =>
      intro p
      rw [List.foldl_cons]
      have h2 : (dietaryStep p s).1.conversation_state = p.1.conversation_state
          ∨ (dietaryStep p s).1.conversation_state = "AWAITING_OTHER_DIETARY" := by
        dsimp only [dietaryStep]
        split_ifs
        · exact Or.inr rfl
        · exact Or.inl rfl
      rcases ih (dietaryStep p s) with h | h
      · rcases h2 with h2 | h2
        · exact Or.inl (h.trans h2)
        · exact Or.inr (h.trans h2)
      · exact Or.inr h

lemma condition_fold_state (sels : List Int) :
    ∀ (p : User × Bool),
      (sels.foldl conditionStep p).1.conversation_state = p.1.conversation_state
      ∨ (sels.foldl conditionStep p).1.conversation_state = "AWAITING_OTHER_CONDITIONS" := by
  induction sels with
  | nil => intro p; exact Or.inl rfl
  | cons s rest ih =>
      intro p
      rw [List.foldl_cons]
      have h2 : (conditionStep p s).1.conversation_state = p.1.conversation_state
          ∨ (conditionStep p s).1.conversation_state = "AWAITING_OTHER_CONDITIONS" := by
        dsimp only [conditionStep]
        split_ifs
        · exact Or.inr rfl
        · exact Or.inl rfl
        · exact Or.inl rfl
      rcases ih (conditionStep p s) with h | h
      · rcases h2 with h2 | h2
        · exact Or.inl (h.trans h2)
        · exact Or.inr (h.trans h2)
      · exact Or.inr h

lemma dietary_state (u : User) (m : String) :
    stateInv u.conversation_state
      (handle_dietary_preferences_response u m).1.conversation_state := by
  unfold handle_dietary_preferences_response
  rcases parseSelections m with _ | sels
  · exact Or.inl rfl
  · dsimp only
    by_cases hr : outOfRange sels DIETARY_PREFERENCES.length = true
    · rw [if_pos hr]
      exact Or.inl rfl
    · rw [if_neg hr]
      by_cases hflag :
          (sels.foldl dietaryStep ({ u with dietary_preferences := [] }, false)).2 = true
      · rw [if_pos hflag]
        rcases dietary_fold_state sels ({ u with dietary_preferences := [] }, false) with h | h
        · exact Or.inl h
        · exact Or.inr (by rw [h]; decide)
      · rw [if_neg hflag]
        exact Or.inr (show "AWAITING_ALLERGIES" ∈ STATE_NAMES by decide)

lemma allergies_state (u : User) (m : String) :
    stateInv u.conversation_state (handle_allergies_response u m).1.conversation_state :=
  Or.inr (show "AWAITING_CULTURAL_PREFERENCES" ∈ STATE_NAMES by decide)

lemma cultural_state (u : User) (m : String) :
    stateInv u.conversation_state
      (handle_cultural_preferences_response u m).1.conversation_state :=
  Or.inr (show "AWAITING_PREGNANCY_CONDITIONS" ∈ STATE_NAMES by decide)

lemma conditions_state (u : User) (m : String) :
    stateInv u.conversation_state
      (handle_pregnancy_conditions_response u m).1.conversation_state := by
  unfold handle_pregnancy_conditions_response
  rcases parseSelections m with _ | sels
  · exact Or.inl rfl
  · dsimp only
    by_cases hr : outOfRange sels PREGNANCY_CONDITIONS.length = true
    · rw [if_pos hr]
      exact Or.inl rfl
    · rw [if_neg hr]
      by_cases hflag :
          (sels.foldl conditionStep ({ u with pregnancy_conditions := [] }, false)).2 = true
      · rw [if_pos hflag]
        rcases condition_fold_state sels ({ u with pregnancy_conditions := [] }, false) with h | h
        · exact Or.inl h
        · exact Or.inr (by rw [h]; decide)
      · rw [if_neg hflag]
        exact Or.inr (show "AWAITING_USAGE_PREFERENCES" ∈ STATE_NAMES by decide)

lemma usage_state (u : User) (m : String) :
    stateInv u.conversation_state
      (handle_usage_preferences_response u m).1.conversation_state := by
  unfold handle_usage_preferences_response
  by_cases h5 : pyStrip m = "5"
  · rw [if_pos h5]
    exact Or.inr (show "COMPLETED_ONBOARDING" ∈ STATE_NAMES by decide)
  · rw [if_neg h5]
    rcases parseSelections m with _ | sels
    · exact Or.inl rfl
    · dsimp only
      by_cases hr : outOfRange sels USAGE_PREFERENCES.length = true
      · rw [if_pos hr]
        exact Or.inl rfl
      · rw [if_neg hr]
        exact Or.inr (show "COMPLETED_ONBOARDING" ∈ STATE_NAMES by decide)

lemma generate_state (env : GenEnv) (db : List MealPlanRec) (u : User) :
    stateInv u.conversation_state (generate_meal_plan env db u).1.conversation_state := by
  unfold generate_meal_plan
  rcases firstValidPlan (env.attempts.take 3) with _ | days
  · exact Or.inl rfl
  · exact Or.inr (show "AWAITING_MEAL_PLAN_DAY" ∈ STATE_NAMES by decide)

lemma day_selection_state (tc : Option (Option String)) (db : List MealPlanRec)
    (u : User) (m : String) :
    stateInv u.conversation_state
      (handle_meal_plan_day_selection tc db u m).1.conversation_state := by
  unfold handle_meal_plan_day_selection
  rcases latestPlanFor db u.phone_number with _ | plan
  · exact Or.inl rfl
  · dsimp only
    by_cases hd : plan.days = []
    · rw [if_pos hd]
      exact Or.inl rfl
    · rw [if_neg hd]
      split
      · exact Or.inl rfl
      · rename_i sd _
        by_cases hm : sd.meals = []
        · rw [if_pos hm]
          exact Or.inl rfl
        · rw [if_neg hm]
          exact Or.inr (show "AWAITING_SHARE_CONFIRMATION" ∈ STATE_NAMES by decide)

lemma share_state (db : List MealPlanRec) (u : User) (m : String) :
    stateInv u.conversation_state (handle_share_confirmation db u m).1.conversation_state := by
  unfold handle_share_confirmation
  split_ifs
  · rcases latestPlanFor db u.phone_number with _ | plan
    · exact Or.inl rfl
    · exact Or.inr (show "COMPLETED_ONBOARDING" ∈ STATE_NAMES by decide)
  · exact Or.inr (show "COMPLETED_ONBOARDING" ∈ STATE_NAMES by decide)

lemma nutrition_state (q : Option String) (u : User) (m : String) :
    (handle_nutrition_question q u m).1.conversation_state = u.conversation_state := by
  rcases q with _ | r <;> rfl

set_option maxHeartbeats 2000000 in
/-- C2 amended: conversation_state is never unset — a freshly created row and
    a row straight after reset_preferences both hold the model default START,
    which lies outside the thirteen machine states — and every state
    process_message writes is one of the thirteen (so, starting from START or
    a machine state, the state stays inside the thirteen states plus START
    forever). -/
theorem c2_state_machine_invariant (env : Env) (db : List MealPlanRec)
    (u : User) (msg : String) :
    ((process_message env db u msg).1.conversation_state = u.conversation_state
      ∨ (process_message env db u msg).1.conversation_state ∈ STATE_NAMES)
    ∧ (∀ phone, (freshUser phone).conversation_state = "START")
    ∧ (∀ v : User, v.reset_preferences.conversation_state = "START") := by
  refine ⟨?_, fun _ => rfl, fun _ => rfl⟩
  unfold process_message
  dsimp only
  by_cases h1 : pyLower msg = "start" ∨ pyLower msg = "hi" ∨ pyLower msg = "hello"
  · rw [if_pos h1]
    exact Or.inr (show "AWAITING_TRIMESTER" ∈ STATE_NAMES by decide)
  · rw [if_neg h1]
    by_cases h2 : pyLower msg = "end"
    · rw [if_pos h2]
      exact Or.inr (show "COMPLETED_ONBOARDING" ∈ STATE_NAMES by decide)
    · rw [if_neg h2]
      by_cases h3 : pyLower msg = "start over"
      · rw [if_pos h3]
        exact Or.inr (show "CONFIRM_RESET" ∈ STATE_NAMES by decide)
      · rw [if_neg h3]
        by_cases h4 : pyLower msg = "settings" ∨ pyLower msg = "update preferences"
        · rw [if_pos h4]
          exact Or.inr (show "AWAITING_TRIMESTER" ∈ STATE_NAMES by decide)
        · rw [if_neg h4]
          by_cases h5 : pyLower msg = "menu" ∨ pyLower msg = "help" ∨ pyLower msg = "options"
          · rw [if_pos h5]
            exact Or.inl rfl
          · rw [if_neg h5]
            by_cases h6 : pyLower msg = "meal plan" ∨ pyLower msg = "generate meal plan"
            · rw [if_pos h6]
              exact generate_state { attempts := env.attempts, randDraw := env.randDraw } db u
            · rw [if_neg h6]
              by_cases h7 : u.conversation_state = "CONFIRM_RESET"
              · rw [if_pos h7]
                exact reset_confirmation_state env.dayOfMonth u msg
              · rw [if_neg h7]
                by_cases h8 : u.conversation_state = "ONBOARDING_START"
                · rw [if_pos h8]
                  exact onboarding_start_state env.dayOfMonth u
                · rw [if_neg h8]
                  by_cases h9 : u.conversation_state = "AWAITING_TRIMESTER"
                  · rw [if_pos h9]
                    exact trimester_state u msg
                  · rw [if_neg h9]
                    by_cases h10 : u.conversation_state = "AWAITING_DIETARY_PREFERENCES"
                    · rw [if_pos h10]
                      exact dietary_state u msg
                    · rw [if_neg h10]
                      by_cases h11 : u.conversation_state = "AWAITING_ALLERGIES"
                      · rw [if_pos h11]
                        exact allergies_state u msg
                      · rw [if_neg h11]
                        by_cases h12 : u.conversation_state = "AWAITING_CULTURAL_PREFERENCES"
                        · rw [if_pos h12]
                          exact cultural_state u msg
                        · rw [if_neg h12]
                          by_cases h13 : u.conversation_state = "AWAITING_PREGNANCY_CONDITIONS"
                          · rw [if_pos h13]
                            exact conditions_state u msg
                          · rw [if_neg h13]
                            by_cases h14 : u.conversation_state = "AWAITING_USAGE_PREFERENCES"
                            · rw [if_pos h14]
                              exact usage_state u msg
                            · rw [if_neg h14]
                              by_cases h15 : u.conversation_state = "AWAITING_MEAL_PLAN_DAY"
                              · rw [if_pos h15]
                                exact day_selection_state env.tipCall db u msg
                              · rw [if_neg h15]
                                by_cases h16 : u.conversation_state = "AWAITING_SHARE_CONFIRMATION"
                                · rw [if_pos h16]
                                  exact share_state db u msg
                                · rw [if_neg h16]
                                  exact Or.inl (nutrition_state env.qaCall u msg)

end MamaMind
